import Mathlib

/-!
Shallow embedding of the `piperf3` configuration-to-command compiler and
result pipeline (`src/piperf3/models.py`, `src/piperf3/runner.py`),
together with theorems settling the specification claims.

Python conventions modelled explicitly:
  * `Optional[X]` becomes `Option X`; machine ints are unbounded in Python,
    so integer fields are `Int`.
  * Python truthiness on `Optional[str]` (`if config.bitrate:`) is
    "is `some s` with `s ≠ ""`"; on `Optional[Path]` and enums it is
    "is `some _`"; `Path` fields are carried as strings.
  * `float` fields (only `interval`) are modelled as rationals; `str()` on
    such a value is modelled by `pyFloatStr` below, which agrees with
    Python for values with a finite decimal expansion.
-/

namespace Piperf3

/-- `Protocol` enum from `models.py` (TCP / UDP / SCTP). -/
inductive Protocol where
  | tcp
  | udp
  | sctp
deriving DecidableEq

/-- `Format` enum from `models.py`; `value` is the external string form. -/
inductive Format where
  | kbits | mbits | gbits | tbits | kbytes | mbytes | gbytes | tbytes
deriving DecidableEq

/-- The `.value` attribute of a `Format` member. -/
def Format.value : Format → String
  | .kbits => "k"
  | .mbits => "m"
  | .gbits => "g"
  | .tbits => "t"
  | .kbytes => "K"
  | .mbytes => "M"
  | .gbytes => "G"
  | .tbytes => "T"

/-- `CongestionAlgorithm` enum from `models.py`. -/
inductive CongestionAlgorithm where
  | cubic | reno | bbr | vegas | westwood | bic | htcp
deriving DecidableEq

/-- The `.value` attribute of a `CongestionAlgorithm` member. -/
def CongestionAlgorithm.value : CongestionAlgorithm → String
  | .cubic => "cubic"
  | .reno => "reno"
  | .bbr => "bbr"
  | .vegas => "vegas"
  | .westwood => "westwood"
  | .bic => "bic"
  | .htcp => "htcp"

/-- Python truthiness of an `Optional[str]` value: `None` and `""` are falsy. -/
def pyTruthyStr : Option String → Bool
  | none => false
  | some s => s ≠ ""

/-- Python truthiness of an `Optional[int]` value: `None` and `0` are falsy. -/
def pyTruthyInt : Option Int → Bool
  | none => false
  | some n => n ≠ 0

/-- Left-pad a digit string with zeros to width `k`. -/
def padZeros (s : String) (k : Nat) : String :=
  String.mk (List.replicate (k - s.length) '0') ++ s

/-- Model of Python `str()` applied to the `interval` float field, for
values with a finite decimal expansion (the only ones used here):
at least one fractional digit is always printed (`str(2.0) = "2.0"`). -/
def pyFloatStr (q : ℚ) : String :=
  let sign := if q < 0 then "-" else ""
  let a := |q|
  let n := a.num.toNat
  let d := a.den
  match (List.range 18).find? (fun k => 10 ^ k % d == 0) with
  | some k =>
      let k := max k 1
      let scaled := n * 10 ^ k / d
      sign ++ toString (scaled / 10 ^ k) ++ "." ++
        padZeros (toString (scaled % 10 ^ k)) k
  | none => sign ++ toString n ++ "/" ++ toString d

/-- `IperfClientConfig` from `models.py`: one record per pydantic field,
with the pydantic defaults as structure defaults.  `cpu_affinity` is stored
in its post-field-validation form (a string).  `dscp` is
`Optional[Union[int, str]]`. -/
structure IperfClientConfig where
  -- base (IperfBaseConfig) fields
  port : Int := 5201
  bind_address : Option String := none
  bind_device : Option String := none
  protocol : Protocol := .tcp
  ipv4_only : Bool := false
  ipv6_only : Bool := false
  format : Option Format := none
  interval : ℚ := 1
  json_output : Bool := false
  json_stream : Bool := false
  verbose : Bool := false
  cpu_affinity : Option String := none
  pidfile : Option String := none
  logfile : Option String := none
  force_flush : Bool := false
  timestamps : Option String := none
  debug : Bool := false
  rcv_timeout : Int := 120000
  snd_timeout : Option Int := none
  use_pkcs1_padding : Bool := false
  mptcp : Bool := false
  -- client-specific fields
  server_host : String
  time : Option Int := some 10
  bytes : Option String := none
  blockcount : Option String := none
  bitrate : Option String := none
  pacing_timer : Int := 1000
  fq_rate : Option String := none
  connect_timeout : Option Int := none
  parallel_streams : Int := 1
  reverse : Bool := false
  bidir : Bool := false
  length : Option String := none
  window : Option String := none
  set_mss : Option Int := none
  no_delay : Bool := false
  client_port : Option Int := none
  tos : Option Int := none
  dscp : Option (Int ⊕ String) := none
  flowlabel : Option Int := none
  file_input : Option String := none
  sctp_streams : Option Int := none
  xbind : Option (List String) := none
  zerocopy : Bool := false
  skip_rx_copy : Bool := false
  «omit» : Option Int := none
  title : Option String := none
  extra_data : Option String := none
  congestion_algorithm : Option CongestionAlgorithm := none
  get_server_output : Bool := false
  udp_counters_64bit : Bool := false
  repeating_payload : Bool := false
  dont_fragment : Bool := false
  username : Option String := none
  password : Option String := none
  rsa_public_key_path : Option String := none

/-- `IperfServerConfig` from `models.py`. -/
structure IperfServerConfig where
  -- base (IperfBaseConfig) fields
  port : Int := 5201
  bind_address : Option String := none
  bind_device : Option String := none
  protocol : Protocol := .tcp
  ipv4_only : Bool := false
  ipv6_only : Bool := false
  format : Option Format := none
  interval : ℚ := 1
  json_output : Bool := false
  json_stream : Bool := false
  verbose : Bool := false
  cpu_affinity : Option String := none
  pidfile : Option String := none
  logfile : Option String := none
  force_flush : Bool := false
  timestamps : Option String := none
  debug : Bool := false
  rcv_timeout : Int := 120000
  snd_timeout : Option Int := none
  use_pkcs1_padding : Bool := false
  mptcp : Bool := false
  -- server-specific fields
  daemon : Bool := false
  one_off : Bool := false
  idle_timeout : Option Int := none
  server_bitrate_limit : Option String := none
  rsa_private_key_path : Option String := none
  authorized_users_path : Option String := none
  time_skew_threshold : Option Int := none

/-- The `Union[IperfClientConfig, IperfServerConfig]` argument of the
runner methods, discriminated by the frozen `mode` tag. -/
inductive IperfConfig where
  | client (c : IperfClientConfig)
  | server (s : IperfServerConfig)

/-- The `json_output` attribute of either configuration kind. -/
def IperfConfig.json_output : IperfConfig → Bool
  | .client c => c.json_output
  | .server s => s.json_output

/-- `Iperf3Runner.__init__` state: the path to the external executable. -/
structure Iperf3Runner where
  iperf3_path : String := "iperf3"


/-- `args.append(flag)` guarded by a boolean condition (`if config.x:`
on a boolean field). -/
def flagIf (cond : Bool) (flag : String) : List String :=
  if cond then [flag] else []

/-- `args.extend([flag, val])` guarded by a boolean condition. -/
def pairIf (cond : Bool) (flag val : String) : List String :=
  if cond then [flag, val] else []

/-- `args.extend([flag, str(v)])` when an `Optional[int]` field
`is not None`. -/
def optIntPair (flag : String) : Option Int → List String
  | some i => [flag, toString i]
  | none => []

/-- `args.extend([flag, str(v)])` when an optional string-like field is
set (used for `Optional[Path]` fields and enum `.value` projections,
whose truthiness is exactly `is not None`). -/
def optStrPair (flag : String) : Option String → List String
  | some s => [flag, s]
  | none => []

/-- `args.extend([flag, v])` when an `Optional[str]` field is truthy
(set and non-empty). -/
def truthyPair (flag : String) (v : Option String) : List String :=
  if pyTruthyStr v then [flag, v.getD ""] else []

/-- The duration-selector block of `Iperf3Runner._build_client_command`
(runner.py lines 110-116): `if config.time is not None: ... elif
config.bytes: ... elif config.blockcount: ...`. -/
def durationArgs (config : IperfClientConfig) : List String :=
  if config.time.isSome then ["--time", toString (config.time.getD 0)]
  else if pyTruthyStr config.bytes then ["--bytes", config.bytes.getD ""]
  else if pyTruthyStr config.blockcount then ["--blockcount", config.blockcount.getD ""]
  else []

/-- The `--timestamps` block of `Iperf3Runner._build_common_options`
(runner.py lines 265-269): `if config.timestamps:` (truthy), then the
bare flag for the exact value `"default"`, else the combined
`--timestamps=<value>` token. -/
def timestampsArgs (v : Option String) : List String :=
  if pyTruthyStr v then
    if v = some "default" then ["--timestamps"]
    else ["--timestamps=" ++ v.getD ""]
  else []

/-- The IP-version block of `_build_common_options` (runner.py lines
275-278): `if config.ipv4_only: ... elif config.ipv6_only: ...`. -/
def ipVersionArgs (ipv4_only ipv6_only : Bool) : List String :=
  if ipv4_only then ["--version4"]
  else if ipv6_only then ["--version6"]
  else []

/-- Stringification of the `dscp` field (`str(config.dscp)` on
`Union[int, str]`). -/
def dscpStr : Int ⊕ String → String
  | .inl i => toString i
  | .inr s => s

/-- `Iperf3Runner._build_common_options` (runner.py lines 230-295),
applied to a client configuration.  One list segment per source `if`
statement, in source order. -/
def Iperf3Runner.build_common_options_client (config : IperfClientConfig) :
    List String :=
  List.flatten
    [optStrPair "--format" (config.format.map Format.value),
     pairIf (config.interval ≠ 1) "--interval" (pyFloatStr config.interval),
     flagIf config.json_output "--json",
     flagIf config.json_stream "--json-stream",
     flagIf config.verbose "--verbose",
     truthyPair "--affinity" config.cpu_affinity,
     optStrPair "--pidfile" config.pidfile,
     optStrPair "--logfile" config.logfile,
     flagIf config.force_flush "--forceflush",
     timestampsArgs config.timestamps,
     flagIf config.debug "--debug",
     ipVersionArgs config.ipv4_only config.ipv6_only,
     pairIf (config.rcv_timeout ≠ 120000) "--rcv-timeout" (toString config.rcv_timeout),
     optIntPair "--snd-timeout" config.snd_timeout,
     flagIf config.use_pkcs1_padding "--use-pkcs1-padding",
     flagIf config.mptcp "--mptcp"]

/-- `Iperf3Runner._build_common_options` applied to a server configuration
(the same Python function; repeated because the two configuration records
are distinct Lean types). -/
def Iperf3Runner.build_common_options_server (config : IperfServerConfig) :
    List String :=
  List.flatten
    [optStrPair "--format" (config.format.map Format.value),
     pairIf (config.interval ≠ 1) "--interval" (pyFloatStr config.interval),
     flagIf config.json_output "--json",
     flagIf config.json_stream "--json-stream",
     flagIf config.verbose "--verbose",
     truthyPair "--affinity" config.cpu_affinity,
     optStrPair "--pidfile" config.pidfile,
     optStrPair "--logfile" config.logfile,
     flagIf config.force_flush "--forceflush",
     timestampsArgs config.timestamps,
     flagIf config.debug "--debug",
     ipVersionArgs config.ipv4_only config.ipv6_only,
     pairIf (config.rcv_timeout ≠ 120000) "--rcv-timeout" (toString config.rcv_timeout),
     optIntPair "--snd-timeout" config.snd_timeout,
     flagIf config.use_pkcs1_padding "--use-pkcs1-padding",
     flagIf config.mptcp "--mptcp"]

/-- `Iperf3Runner._build_client_command` (runner.py lines 103-228): the
sequential `args.extend`/`args.append` calls are modelled as the
concatenation of one segment per source `if` statement, in source order.
The `if config.xbind:` guard is a no-op for `None`/empty lists (the loop
body runs once per element), so it is modelled by iterating over
`getD []`. -/
def Iperf3Runner.build_client_command (config : IperfClientConfig) :
    List String :=
  List.flatten
    [["--client", config.server_host],
     pairIf (config.port ≠ 5201) "--port" (toString config.port),
     durationArgs config,
     (if config.protocol = .udp then ["--udp"]
      else if config.protocol = .sctp then ["--sctp"] else []),
     truthyPair "--bitrate" config.bitrate,
     pairIf (config.pacing_timer ≠ 1000) "--pacing-timer" (toString config.pacing_timer),
     truthyPair "--fq-rate" config.fq_rate,
     optIntPair "--connect-timeout" config.connect_timeout,
     pairIf (config.parallel_streams > 1) "--parallel" (toString config.parallel_streams),
     flagIf config.reverse "--reverse",
     flagIf config.bidir "--bidir",
     truthyPair "--length" config.length,
     truthyPair "--window" config.window,
     optIntPair "--set-mss" config.set_mss,
     flagIf config.no_delay "--no-delay",
     optIntPair "--cport" config.client_port,
     optIntPair "--tos" config.tos,
     optStrPair "--dscp" (config.dscp.map dscpStr),
     optIntPair "--flowlabel" config.flowlabel,
     optStrPair "--file" config.file_input,
     optIntPair "--nstreams" config.sctp_streams,
     (config.xbind.getD []).flatMap (fun a => ["--xbind", a]),
     flagIf config.zerocopy "--zerocopy",
     flagIf config.skip_rx_copy "--skip-rx-copy",
     optIntPair "--omit" config.«omit»,
     truthyPair "--title" config.title,
     truthyPair "--extra-data" config.extra_data,
     optStrPair "--congestion" (config.congestion_algorithm.map CongestionAlgorithm.value),
     flagIf config.get_server_output "--get-server-output",
     flagIf config.udp_counters_64bit "--udp-counters-64bit",
     flagIf config.repeating_payload "--repeating-payload",
     flagIf config.dont_fragment "--dont-fragment",
     truthyPair "--username" config.username,
     optStrPair "--rsa-public-key-path" config.rsa_public_key_path,
     Iperf3Runner.build_common_options_client config]

/-- `Iperf3Runner._build_server_command` (runner.py lines 61-101). -/
def Iperf3Runner.build_server_command (config : IperfServerConfig) :
    List String :=
  List.flatten
    [["--server"],
     pairIf (config.port ≠ 5201) "--port" (toString config.port),
     truthyPair "--bind" config.bind_address,
     truthyPair "--bind-dev" config.bind_device,
     flagIf config.daemon "--daemon",
     flagIf config.one_off "--one-off",
     optIntPair "--idle-timeout" config.idle_timeout,
     truthyPair "--server-bitrate-limit" config.server_bitrate_limit,
     optStrPair "--rsa-private-key-path" config.rsa_private_key_path,
     optStrPair "--authorized-users-path" config.authorized_users_path,
     optIntPair "--time-skew-threshold" config.time_skew_threshold,
     Iperf3Runner.build_common_options_server config]

/-- `Iperf3Runner.build_command` (runner.py lines 45-59): prepends the
executable path and dispatches on the configuration's mode tag. -/
def Iperf3Runner.build_command (runner : Iperf3Runner) (config : IperfConfig) :
    List String :=
  runner.iperf3_path ::
    (match config with
     | .server s => Iperf3Runner.build_server_command s
     | .client c => Iperf3Runner.build_client_command c)

/-- Characters removed by Python `str.strip()` (ASCII whitespace). -/
def isPyWs (c : Char) : Bool :=
  c = ' ' || c = '\t' || c = '\n' || c = '\r' || c = '\x0b' || c = '\x0c'

/-- Python `str.strip()`. -/
def pyStrip (s : String) : String :=
  String.mk (((s.toList.dropWhile isPyWs).reverse.dropWhile isPyWs).reverse)

/-- Splitting of a character list at every occurrence of `sep`, keeping
empty segments (the behaviour of Python `s.split(sep)` for a one-character
separator). -/
def splitCharAux (sep : Char) : List Char → List (List Char)
  | [] => [[]]
  | c :: r =>
      if c = sep then [] :: splitCharAux sep r
      else
        match splitCharAux sep r with
        | l :: ls => (c :: l) :: ls
        | [] => [[c]]

/-- Python `s.split(sep)` for a one-character separator. -/
def pySplitChar (sep : Char) (s : String) : List String :=
  (splitCharAux sep s.toList).map String.mk

/-- Digit run of a Python integer literal: nonempty digits with single
underscores allowed between digits (`int("1_2")` parses, `int("1__2")`
and `int("_1")` do not). -/
def pyIntDigitsTail : List Char → Bool
  | [] => true
  | '_' :: c :: cs => c.isDigit && pyIntDigitsTail cs
  | ['_'] => false
  | c :: cs => c.isDigit && pyIntDigitsTail cs

/-- Whether `int(s)` succeeds in Python: surrounding whitespace, an
optional sign, then a digit run. -/
def pyIntParsable (s : String) : Bool :=
  match (pyStrip s).toList with
  | '+' :: c :: cs => c.isDigit && pyIntDigitsTail cs
  | '-' :: c :: cs => c.isDigit && pyIntDigitsTail cs
  | c :: cs => c.isDigit && pyIntDigitsTail cs
  | [] => false

/-- `IperfBaseConfig.validate_cpu_affinity` (models.py lines 109-126):
`None` passes through, an `int` is stringified, and a string must split
on `","` into at most two parts, each parseable by `int(part.strip())`;
the string is returned unchanged. -/
def validate_cpu_affinity (v : Option (Int ⊕ String)) :
    Except String (Option String) :=
  match v with
  | none => .ok none
  | some (.inl i) => .ok (some (toString i))
  | some (.inr s) =>
      let parts := pySplitChar ',' s
      if parts.length > 2 then
        .error "CPU affinity must be 'n' or 'n,m' format"
      else
        match parts.find? (fun p => !(pyIntParsable (pyStrip p))) with
        | some p => .error ("Invalid CPU number: " ++ p)
        | none => .ok (some s)

/-- One pydantic `ge` bound check on a required int field. -/
def checkGe (name : String) (v bound : Int) : List String :=
  if bound ≤ v then []
  else [name ++ ": Input should be greater than or equal to " ++ toString bound]

/-- One pydantic `le` bound check on a required int field. -/
def checkLe (name : String) (v bound : Int) : List String :=
  if v ≤ bound then []
  else [name ++ ": Input should be less than or equal to " ++ toString bound]

/-- A bound check on an `Optional[int]` field (vacuous for `None`). -/
def checkOptGe (name : String) (v : Option Int) (bound : Int) : List String :=
  match v with
  | some x => checkGe name x bound
  | none => []

/-- A `le` bound check on an `Optional[int]` field (vacuous for `None`). -/
def checkOptLe (name : String) (v : Option Int) (bound : Int) : List String :=
  match v with
  | some x => checkLe name x bound
  | none => []

/-- The aggregated per-field (pydantic `Field` constraint and
`field_validator`) errors for `IperfClientConfig`, in field-declaration
order.  `raw_cpu_affinity` is the value as passed to the constructor
(`Optional[Union[int, str]]`). -/
def clientFieldErrors (raw_cpu_affinity : Option (Int ⊕ String))
    (f : IperfClientConfig) : List String :=
  checkGe "port" f.port 1 ++ checkLe "port" f.port 65535
  ++ (if f.interval < 0 then
        ["interval: Input should be greater than or equal to 0"] else [])
  ++ (match validate_cpu_affinity raw_cpu_affinity with
      | .error e => ["cpu_affinity: " ++ e]
      | .ok _ => [])
  ++ checkGe "rcv_timeout" f.rcv_timeout 0
  ++ checkOptGe "snd_timeout" f.snd_timeout 0
  ++ checkOptGe "time" f.time 1
  ++ checkGe "pacing_timer" f.pacing_timer 1
  ++ checkOptGe "connect_timeout" f.connect_timeout 1
  ++ checkGe "parallel_streams" f.parallel_streams 1
  ++ checkOptGe "set_mss" f.set_mss 1
  ++ checkOptGe "client_port" f.client_port 1
  ++ checkOptLe "client_port" f.client_port 65535
  ++ checkOptGe "tos" f.tos 0 ++ checkOptLe "tos" f.tos 255
  ++ checkOptGe "flowlabel" f.flowlabel 0
  ++ checkOptGe "sctp_streams" f.sctp_streams 1
  ++ checkOptGe "omit" f.«omit» 0

/-- `IperfBaseConfig.validate_ip_versions` (models.py lines 128-132). -/
def validate_ip_versions (ipv4_only ipv6_only : Bool) : Except String Unit :=
  if ipv4_only && ipv6_only then
    .error "Cannot specify both IPv4-only and IPv6-only"
  else .ok ()

/-- The number of duration-selector fields that are not `None`
(`values` list of `IperfClientConfig.validate_test_duration`). -/
def durationSetCount (f : IperfClientConfig) : Nat :=
  (if f.time.isSome then 1 else 0)
  + (if f.bytes.isSome then 1 else 0)
  + (if f.blockcount.isSome then 1 else 0)

/-- `IperfClientConfig.validate_test_duration` (models.py lines 260-269):
fails when more than one of `time`, `bytes`, `blockcount` is set. -/
def validate_test_duration (f : IperfClientConfig) : Except String Unit :=
  if durationSetCount f > 1 then
    .error "Only one of ['time', 'bytes', 'blockcount'] can be specified"
  else .ok ()

/-- `IperfClientConfig.validate_protocol_specific` (models.py lines
271-286): UDP rejects `no_delay` and `congestion_algorithm` (in that
order); SCTP defaults a falsy `sctp_streams` to 1. -/
def validate_protocol_specific (f : IperfClientConfig) :
    Except String IperfClientConfig :=
  if f.protocol = .udp then
    if f.no_delay then .error "no_delay is not applicable for UDP"
    else if f.congestion_algorithm.isSome then
      .error "congestion_algorithm is not applicable for UDP"
    else .ok f
  else if f.protocol = .sctp && !(pyTruthyInt f.sctp_streams) then
    .ok { f with sctp_streams := some 1 }
  else .ok f

/-- Construction of an `IperfClientConfig` under pydantic v2 semantics:
per-field constraint violations (including the `cpu_affinity`
field validator) are collected into one aggregate `ValidationError`;
if all fields pass, the `mode="after"` model validators run in
declaration order — the inherited `validate_ip_versions` first, then
`validate_test_duration`, then `validate_protocol_specific` — and the
first `ValueError` raised aborts construction with exactly that single
error.  `f` carries the constructor arguments; its `cpu_affinity` field
is replaced by the validated form of `raw_cpu_affinity`. -/
def IperfClientConfig.construct (raw_cpu_affinity : Option (Int ⊕ String))
    (f : IperfClientConfig) : Except (List String) IperfClientConfig :=
  let errs := clientFieldErrors raw_cpu_affinity f
  if errs ≠ [] then .error errs
  else
    let f := { f with
      cpu_affinity :=
        match validate_cpu_affinity raw_cpu_affinity with
        | .ok v => v
        | .error _ => none }
    match validate_ip_versions f.ipv4_only f.ipv6_only with
    | .error e => .error [e]
    | .ok _ =>
        match validate_test_duration f with
        | .error e => .error [e]
        | .ok _ =>
            match validate_protocol_specific f with
            | .error e => .error [e]
            | .ok f2 => .ok f2

/-- A parsed JSON document (numbers are kept as lexemes; none of the
claims depend on numeric values). -/
inductive Json where
  | null
  | bool (b : Bool)
  | num (lexeme : String)
  | str (s : String)
  | arr (elems : List Json)
  | obj (members : List (String × Json))

/-- JSON insignificant whitespace. -/
def jsonSkipWs : List Char → List Char
  | c :: cs =>
      if c = ' ' || c = '\t' || c = '\n' || c = '\r' then jsonSkipWs cs
      else c :: cs
  | [] => []

/-- JSON short escape sequences (`\uXXXX` is not modelled; no claim input
uses it). -/
def jsonEsc : Char → Option Char
  | '"' => some '"'
  | '\\' => some '\\'
  | '/' => some '/'
  | 'b' => some '\x08'
  | 'f' => some '\x0c'
  | 'n' => some '\n'
  | 'r' => some '\r'
  | 't' => some '\t'
  | _ => none

/-- Body of a JSON string after the opening quote; `acc` holds the
characters read so far, reversed. -/
def parseStringAux (acc : List Char) : List Char → Option (String × List Char)
  | [] => none
  | '"' :: r => some (String.mk acc.reverse, r)
  | '\\' :: c :: r =>
      match jsonEsc c with
      | some e => parseStringAux (e :: acc) r
      | none => none
  | c :: r => if c.val < 32 then none else parseStringAux (c :: acc) r

/-- Fractional part of a JSON number (possibly empty). -/
def parseFrac : List Char → Option (List Char × List Char)
  | '.' :: r =>
      (match List.span (fun c => c.isDigit) r with
       | ([], _) => none
       | (ds, r2) => some ('.' :: ds, r2))
  | cs => some ([], cs)

/-- Exponent part of a JSON number (possibly empty). -/
def parseExp : List Char → Option (List Char × List Char)
  | c :: r =>
      if c = 'e' || c = 'E' then
        let signed : List Char × List Char :=
          match r with
          | s :: r1 => if s = '+' || s = '-' then ([s], r1) else ([], r)
          | [] => ([], [])
        match List.span (fun ch => ch.isDigit) signed.2 with
        | ([], _) => none
        | (ds, r2) => some (c :: (signed.1 ++ ds), r2)
      else some ([], c :: r)
  | [] => some ([], [])

/-- A JSON number: optional minus, integer part without leading zeros,
optional fraction and exponent; the lexeme is kept. -/
def parseNumber (cs : List Char) : Option (Json × List Char) :=
  let signed : List Char × List Char :=
    match cs with
    | '-' :: r => (['-'], r)
    | _ => ([], cs)
  let intPart : Option (List Char × List Char) :=
    match signed.2 with
    | '0' :: r => some (['0'], r)
    | c :: r =>
        if c.isDigit then
          match List.span (fun ch => ch.isDigit) r with
          | (ds, r2) => some (c :: ds, r2)
        else none
    | [] => none
  match intPart with
  | none => none
  | some (ip, r) =>
      match parseFrac r with
      | none => none
      | some (fp, r2) =>
          match parseExp r2 with
          | none => none
          | some (ep, r3) =>
              some (.num (String.mk (signed.1 ++ ip ++ fp ++ ep)), r3)

mutual

/-- One JSON value, fuel-bounded recursive descent. -/
def parseVal (fuel : Nat) (cs : List Char) : Option (Json × List Char) :=
  match fuel with
  | 0 => none
  | fuel + 1 =>
      match jsonSkipWs cs with
      | 't' :: 'r' :: 'u' :: 'e' :: r => some (.bool true, r)
      | 'f' :: 'a' :: 'l' :: 's' :: 'e' :: r => some (.bool false, r)
      | 'n' :: 'u' :: 'l' :: 'l' :: r => some (.null, r)
      | '"' :: r => (parseStringAux [] r).map (fun p => (.str p.1, p.2))
      | '[' :: r =>
          (match jsonSkipWs r with
           | ']' :: r2 => some (.arr [], r2)
           | _ =>
               match parseArrayElems fuel r with
               | some (vs, r2) => some (.arr vs, r2)
               | none => none)
      | '{' :: r =>
          (match jsonSkipWs r with
           | '}' :: r2 => some (.obj [], r2)
           | _ =>
               match parseObjMembers fuel r with
               | some (ms, r2) => some (.obj ms, r2)
               | none => none)
      | rest => parseNumber rest

/-- Comma-separated array elements up to the closing bracket. -/
def parseArrayElems (fuel : Nat) (cs : List Char) :
    Option (List Json × List Char) :=
  match fuel with
  | 0 => none
  | fuel + 1 =>
      match parseVal fuel cs with
      | none => none
      | some (v, r) =>
          match jsonSkipWs r with
          | ',' :: r2 =>
              (match parseArrayElems fuel r2 with
               | some (vs, r3) => some (v :: vs, r3)
               | none => none)
          | ']' :: r2 => some ([v], r2)
          | _ => none

/-- Comma-separated object members up to the closing brace. -/
def parseObjMembers (fuel : Nat) (cs : List Char) :
    Option (List (String × Json) × List Char) :=
  match fuel with
  | 0 => none
  | fuel + 1 =>
      match jsonSkipWs cs with
      | '"' :: r =>
          (match parseStringAux [] r with
           | none => none
           | some (k, r2) =>
               match jsonSkipWs r2 with
               | ':' :: r3 =>
                   (match parseVal fuel r3 with
                    | none => none
                    | some (v, r4) =>
                        match jsonSkipWs r4 with
                        | ',' :: r5 =>
                            (match parseObjMembers fuel r5 with
                             | some (ms, r6) => some ((k, v) :: ms, r6)
                             | none => none)
                        | '}' :: r5 => some ([(k, v)], r5)
                        | _ => none)
               | _ => none)
      | _ => none

end

/-- Model of Python `json.loads`: one JSON document with nothing but
whitespace after it, else failure.  (The non-standard `NaN`/`Infinity`
extensions and `\uXXXX` escapes are not modelled; no claim input uses
them.) -/
def pyJsonLoads (s : String) : Option Json :=
  match parseVal (s.length + 2) s.toList with
  | some (v, rest) => if jsonSkipWs rest = [] then some v else none
  | none => none

/-- Python `s.split("\n")`. -/
def pySplitNl (s : String) : List String :=
  pySplitChar '\n' s

/-- Python `s.strip().startswith("{")`. -/
def stripStartsWithBrace (s : String) : Bool :=
  match (pyStrip s).toList with
  | '{' :: _ => true
  | _ => false

/-- The line-scanning loop of `Iperf3Runner.run` (runner.py lines
350-357): only lines whose stripped form starts with `"{"` are offered to
`json.loads`; the first success is kept (`break`), failures continue. -/
def scanJsonLines : List String → Option Json
  | [] => none
  | line :: rest =>
      if stripStartsWithBrace line then
        match pyJsonLoads line with
        | some j => some j
        | none => scanJsonLines rest
      else scanJsonLines rest

/-- The JSON-recovery step of `Iperf3Runner.run` (runner.py lines
344-357): parse all of stdout, or fall back to the line scan. -/
def parse_json_output (stdout : String) : Option Json :=
  match pyJsonLoads stdout with
  | some j => some j
  | none => scanJsonLines (pySplitNl stdout)

/-- The line scan as the specification claims it: every line is attempted
independently and the first line that parses as JSON is accepted. -/
def specScanLines : List String → Option Json
  | [] => none
  | line :: rest =>
      match pyJsonLoads line with
      | some j => some j
      | none => specScanLines rest

/-- The parsing policy exactly as claim C6 states it: whole buffer first,
then the first line that parses as JSON. -/
def specParsePolicy (stdout : String) : Option Json :=
  match pyJsonLoads stdout with
  | some j => some j
  | none => specScanLines (pySplitNl stdout)

/-- The amended parsing policy, phrased from the spec side: whole buffer
first; otherwise, among the lines whose stripped form starts with `"{"`,
the first one that parses as JSON. -/
def specParsePolicyAmended (stdout : String) : Option Json :=
  match pyJsonLoads stdout with
  | some j => some j
  | none =>
      specScanLines ((pySplitNl stdout).filter stripStartsWithBrace)

/-- `EnvironmentConfig` from `models.py` (pydantic `BaseSettings`):
the declared fields, with their defaults.  `created_at` and the two
introspected maps are carried abstractly. -/
structure EnvironmentConfig where
  name : String := "iperf3_test_environment"
  description : Option String := none
  version : String := "1.0"
  created_at : String := ""
  created_by : Option String := none
  tags : List String := []
  server_host : Option String := none
  port : Int := 5201
  time : Option Int := some 10
  bitrate : Option String := none
  parallel_streams : Int := 1
  protocol : Protocol := .tcp
  format : Option Format := none
  json_output : Bool := true
  verbose : Bool := false
  reverse : Bool := false
  bidir : Bool := false
  output_directory : Option String := none
  run_id : Option String := none
  node_info : List (String × String) := []
  slurm_info : List (String × String) := []

/-- The attribute names defined on `EnvironmentConfig` (its pydantic
fields; `extra="ignore"`, so nothing else is reachable by attribute
access). -/
def environmentConfigFieldNames : List String :=
  ["name", "description", "version", "created_at", "created_by", "tags",
   "server_host", "port", "time", "bitrate", "parallel_streams",
   "protocol", "format", "json_output", "verbose", "reverse", "bidir",
   "output_directory", "run_id", "node_info", "slurm_info"]

/-- Python attribute access `env_config.<attr>` for an attribute expected
to hold an environment-variable map: it succeeds only if `attr` is a
declared field, and otherwise raises
`AttributeError: '<class>' object has no attribute '<attr>'`.
`runner.py` accesses `env_config.env_vars`, which is not declared. -/
def EnvironmentConfig.getattrMap (_ : EnvironmentConfig) (attr : String) :
    Except String (List (String × String)) :=
  if attr ∈ environmentConfigFieldNames then .ok []
  else .error ("'EnvironmentConfig' object has no attribute '" ++ attr ++ "'")

/-- `EnvironmentConfig.to_client_config` (models.py lines 416-433):
`None` when `server_host` is falsy, otherwise the shared subset copied
into a client configuration (unvalidated carrier value). -/
def EnvironmentConfig.to_client_config (env : EnvironmentConfig) :
    Option IperfClientConfig :=
  if pyTruthyStr env.server_host then
    some { server_host := env.server_host.getD ""
           port := env.port
           time := env.time
           bitrate := env.bitrate
           parallel_streams := env.parallel_streams
           protocol := env.protocol
           format := env.format
           json_output := env.json_output
           verbose := env.verbose
           reverse := env.reverse
           bidir := env.bidir }
  else none

/-- Outcome of the `subprocess.run` call as seen by `Iperf3Runner.run`:
normal completion, `TimeoutExpired`, or any other exception. -/
inductive SpawnBehavior where
  | completes (stdout stderr : String) (returncode : Int)
  | timesOut
  | raises (msg : String)

/-- The fields of the `IperfResult` record that `Iperf3Runner.run`
produces (file-path fields and the persisted artifacts are outside this
model; `end_time` is tracked as set / not set). -/
structure IperfResult where
  environment_name : String
  run_id : String
  stdout : String := ""
  stderr : String := ""
  return_code : Int := 0
  json_results : Option Json := none
  end_time_set : Bool := false

/-- Python `str(timeout)` for the `Optional[int]` timeout used in the
timeout message f-string. -/
def timeoutStr : Option Int → String
  | some t => toString t
  | none => "None"

/-- `Iperf3Runner.run` (runner.py lines 297-371).  The subprocess itself
is abstracted by `spawn` (what `subprocess.run` would do on the compiled
command), and `uuid` stands for the `str(uuid.uuid4())` fallback run id.
The returned boolean records whether the subprocess was actually started.
Inside the `try` block the environment map is built as
`{**os.environ, **env_config.env_vars}`; the attribute access is the
first thing that can fail, and its `AttributeError` is caught by the
generic `except Exception` handler. -/
def Iperf3Runner.run (runner : Iperf3Runner) (config : IperfConfig)
    (env_config : EnvironmentConfig) (timeout : Option Int) (uuid : String)
    (spawn : List String → SpawnBehavior) : IperfResult × Bool :=
  let run_id :=
    match env_config.run_id with
    | some s => if s ≠ "" then s else uuid
    | none => uuid
  let _cmd_saved := runner.build_command config
  let result : IperfResult :=
    { environment_name := env_config.name, run_id := run_id }
  match env_config.getattrMap "env_vars" with
  | .error e =>
      ({ result with
          stderr := "Unexpected error: " ++ e
          return_code := -1
          end_time_set := true }, false)
  | .ok _ =>
      match spawn (runner.build_command config) with
      | .timesOut =>
          ({ result with
              stderr := "Command timed out after " ++ timeoutStr timeout
                ++ " seconds"
              return_code := -1
              end_time_set := true }, true)
      | .raises msg =>
          ({ result with
              stderr := "Unexpected error: " ++ msg
              return_code := -1
              end_time_set := true }, true)
      | .completes out err rc =>
          ({ result with
              stdout := out
              stderr := err
              return_code := rc
              end_time_set := true
              json_results :=
                if config.json_output && out ≠ "" then parse_json_output out
                else none }, true)

/-! ## Helper lemmas shared by the claim theorems -/

/-- A member of a list of lists is a contiguous infix of its
flattening. -/
theorem infix_flatten_of_mem {α : Type} {l : List α} {L : List (List α)}
    (h : l ∈ L) : l <:+: L.flatten := by
  induction L with
  | nil => cases h
  | cons a t ih =>
      rcases List.mem_cons.mp h with rfl | h2
      · exact ⟨[], t.flatten, by simp⟩
      · rcases ih h2 with ⟨s, u, hsu⟩
        exact ⟨a ++ s, u, by simp [← hsu]⟩

/-- The fused scan-with-predicate loop of the runner equals filtering the
lines first and then taking the first parseable one. -/
theorem scanJsonLines_eq_filter (ls : List String) :
    scanJsonLines ls = specScanLines (ls.filter stripStartsWithBrace) := by
  induction ls with
  | nil => rfl
  | cons l r ih =>
      by_cases h : stripStartsWithBrace l = true
      · cases hj : pyJsonLoads l <;>
          simp [scanJsonLines, specScanLines, List.filter_cons, h, hj, ih]
      · simp [scanJsonLines, List.filter_cons, h, ih]

/-- Construction fails whenever more than one duration selector is set,
regardless of any other field. -/
theorem construct_fails_of_dup_duration (raw : Option (Int ⊕ String))
    (f : IperfClientConfig) (h : durationSetCount f > 1) :
    (IperfClientConfig.construct raw f).isOk = false := by
  simp only [durationSetCount] at h
  by_cases he : clientFieldErrors raw f = []
  · by_cases hip : (f.ipv4_only && f.ipv6_only) = true
    · simp [IperfClientConfig.construct, he, validate_ip_versions, hip,
        Except.isOk, Except.toBool]
    · simp [IperfClientConfig.construct, he, validate_ip_versions, hip,
        validate_test_duration, durationSetCount, h, Except.isOk, Except.toBool]
  · simp [IperfClientConfig.construct, he, Except.isOk, Except.toBool]

/-- Construction succeeds for a TCP configuration with no field errors,
compatible IP-version flags and at most one duration selector. -/
theorem construct_ok_of_valid_tcp (raw : Option (Int ⊕ String))
    (f : IperfClientConfig) (h1 : clientFieldErrors raw f = [])
    (h2 : (f.ipv4_only && f.ipv6_only) = false)
    (h3 : ¬ durationSetCount f > 1) (h4 : f.protocol = .tcp) :
    (IperfClientConfig.construct raw f).isOk = true := by
  simp only [durationSetCount] at h3
  simp [IperfClientConfig.construct, h1, validate_ip_versions, h2,
    validate_test_duration, durationSetCount, h3,
    validate_protocol_specific, h4, Except.isOk, Except.toBool]

/-! ## Claim theorems -/

/-- Claim C1: for every configuration, environment, timeout, fallback run
id and every possible subprocess behaviour, the synchronous `run` returns
a result with `return_code = -1` and `stderr` beginning with
`"Unexpected error:"` (in fact the attribute-error text for the missing
`env_vars` field), and the external tool is never started (the returned
flag recording a `subprocess.run` call is `false`). -/
theorem C1_run_reports_env_vars_attribute_error :
    ∀ (runner : Iperf3Runner) (config : IperfConfig)
      (env : EnvironmentConfig) (timeout : Option Int) (uuid : String)
      (spawn : List String → SpawnBehavior),
      (Iperf3Runner.run runner config env timeout uuid spawn).2 = false ∧
      (Iperf3Runner.run runner config env timeout uuid spawn).1.return_code = -1 ∧
      (Iperf3Runner.run runner config env timeout uuid spawn).1.stderr =
        "Unexpected error: 'EnvironmentConfig' object has no attribute 'env_vars'" ∧
      ∃ rest, (Iperf3Runner.run runner config env timeout uuid spawn).1.stderr =
        "Unexpected error:" ++ rest := by
  intro runner config env timeout uuid spawn
  exact ⟨rfl, rfl, rfl,
    ⟨" 'EnvironmentConfig' object has no attribute 'env_vars'", rfl⟩⟩

/-- Claim C2, counterexample: the all-default client configuration for
host `"node1"` does not compile to `["--client", "node1"]` — the command
also carries `"--time", "10"`, because `time` defaults to `10` and the
time pair is emitted whenever `time` is not `None`. -/
theorem C2_default_client_command_counterexample :
    Iperf3Runner.build_client_command { server_host := "node1" } =
      ["--client", "node1", "--time", "10"] ∧
    Iperf3Runner.build_client_command { server_host := "node1" } ≠
      ["--client", "node1"] :=
  ⟨rfl, by decide⟩

/-- Claim C2, amended: the all-default client configuration for host
`"node1"` compiles to exactly `["--client", "node1", "--time", "10"]`
(all other defaulted flags omitted, nothing before `"--client"`), and
`build_command` prepends only the executable path. -/
theorem C2_default_client_command_amended :
    Iperf3Runner.build_client_command { server_host := "node1" } =
      ["--client", "node1", "--time", "10"] ∧
    Iperf3Runner.build_command {} (.client { server_host := "node1" }) =
      ["iperf3", "--client", "node1", "--time", "10"] :=
  ⟨rfl, rfl⟩

/-- Claim C3, counterexample: a configuration violating both the
duration-uniqueness constraint (`time` left at its default together with
`bytes`) and the UDP/`no_delay` constraint fails with a `ValidationError`
carrying exactly one message — only the duration constraint is named,
although `validate_protocol_specific` would also reject this value. -/
theorem C3_single_error_counterexample :
    IperfClientConfig.construct none
      { server_host := "h", bytes := some "1M", protocol := .udp,
        no_delay := true } =
      .error ["Only one of ['time', 'bytes', 'blockcount'] can be specified"] ∧
    validate_protocol_specific
      { server_host := "h", bytes := some "1M", protocol := .udp,
        no_delay := true } =
      .error "no_delay is not applicable for UDP" ∧
    ["Only one of ['time', 'bytes', 'blockcount'] can be specified"].length
      = 1 :=
  ⟨by rfl, by rfl, rfl⟩

/-- Claim C3, amended: per-field constraint violations are aggregated,
but cross-field (model-validator) violations are not — whenever the
fields themselves are clean, the IP-version flags are compatible, and
more than one duration selector is set, construction fails with exactly
the single duration-uniqueness message, whatever other cross-field
constraints are also violated. -/
theorem C3_first_model_error_only :
    ∀ (raw : Option (Int ⊕ String)) (f : IperfClientConfig),
      clientFieldErrors raw f = [] →
      (f.ipv4_only && f.ipv6_only) = false →
      durationSetCount f > 1 →
      IperfClientConfig.construct raw f =
        .error ["Only one of ['time', 'bytes', 'blockcount'] can be specified"] := by
  intro raw f he hip h
  simp only [durationSetCount] at h
  simp [IperfClientConfig.construct, he, validate_ip_versions, hip,
    validate_test_duration, durationSetCount, h]

/-- Witness for C3: the amended theorem applied to a concrete
configuration violating both the duration and the UDP constraints. -/
theorem C3_first_model_error_only_witness :
    IperfClientConfig.construct none
      { server_host := "srv", blockcount := some "5", protocol := .udp,
        no_delay := true } =
      .error ["Only one of ['time', 'bytes', 'blockcount'] can be specified"] :=
  C3_first_model_error_only none _ (by decide) rfl (by decide)

/-- Claim C4, counterexample: with `time` at its documented default 10,
the compiled command still carries the `--time` pair (while, e.g., the
port pair is correctly suppressed at its default). -/
theorem C4_time_default_counterexample :
    ({ server_host := "h" } : IperfClientConfig).time = some 10 ∧
    "--time" ∈ Iperf3Runner.build_client_command { server_host := "h" } ∧
    "--port" ∉ Iperf3Runner.build_client_command { server_host := "h" } :=
  ⟨rfl, by decide, by decide⟩

/-- Claim C4, amended: on an otherwise-default client configuration, the
flag pairs for port, interval, pacing timer, parallel streams and receive
timeout appear exactly when the field differs from its documented default
(5201, 1.0, 1000, 1, 120000); the `--time` pair is the exception — it
appears whenever `time` is not `None`, including at its default 10. -/
theorem C4_default_suppression_amended :
    (∀ p : Int, 1 ≤ p → p ≤ 65535 →
      (("--port" ∈ Iperf3Runner.build_client_command
         { server_host := "h", port := p }) ↔ p ≠ 5201)) ∧
    (∀ q : ℚ, 0 ≤ q →
      (("--interval" ∈ Iperf3Runner.build_client_command
         { server_host := "h", interval := q }) ↔ q ≠ 1)) ∧
    (∀ t : Int, 1 ≤ t →
      (("--pacing-timer" ∈ Iperf3Runner.build_client_command
         { server_host := "h", pacing_timer := t }) ↔ t ≠ 1000)) ∧
    (∀ n : Int, 1 ≤ n →
      (("--parallel" ∈ Iperf3Runner.build_client_command
         { server_host := "h", parallel_streams := n }) ↔ n ≠ 1)) ∧
    (∀ r : Int, 0 ≤ r →
      (("--rcv-timeout" ∈ Iperf3Runner.build_client_command
         { server_host := "h", rcv_timeout := r }) ↔ r ≠ 120000)) ∧
    (∀ t : Option Int,
      ("--time" ∈ Iperf3Runner.build_client_command
         { server_host := "h", time := t }) ↔ t ≠ none) := by
  refine ⟨?_, ?_, ?_, ?_, ?_, ?_⟩
  · intro p h1 h2
    by_cases hp : p = 5201
    · subst hp; decide
    · simp [Iperf3Runner.build_client_command,
        Iperf3Runner.build_common_options_client, pairIf, flagIf, optIntPair,
        optStrPair, truthyPair, durationArgs, timestampsArgs, ipVersionArgs,
        pyTruthyStr, hp]
  · intro q h
    by_cases hq : q = 1
    · subst hq; decide
    · simp [Iperf3Runner.build_client_command,
        Iperf3Runner.build_common_options_client, pairIf, flagIf, optIntPair,
        optStrPair, truthyPair, durationArgs, timestampsArgs, ipVersionArgs,
        pyTruthyStr, hq]
  · intro t h
    by_cases ht : t = 1000
    · subst ht; decide
    · simp [Iperf3Runner.build_client_command,
        Iperf3Runner.build_common_options_client, pairIf, flagIf, optIntPair,
        optStrPair, truthyPair, durationArgs, timestampsArgs, ipVersionArgs,
        pyTruthyStr, ht]
  · intro n h
    by_cases hn : n = 1
    · subst hn; decide
    · have hgt : 1 < n := lt_of_le_of_ne h (Ne.symm hn)
      simp [Iperf3Runner.build_client_command,
        Iperf3Runner.build_common_options_client, pairIf, flagIf, optIntPair,
        optStrPair, truthyPair, durationArgs, timestampsArgs, ipVersionArgs,
        pyTruthyStr, hn, hgt]
  · intro r h
    by_cases hr : r = 120000
    · subst hr; decide
    · simp [Iperf3Runner.build_client_command,
        Iperf3Runner.build_common_options_client, pairIf, flagIf, optIntPair,
        optStrPair, truthyPair, durationArgs, timestampsArgs, ipVersionArgs,
        pyTruthyStr, hr]
  · intro t
    match t with
    | none => decide
    | some x =>
        simp [Iperf3Runner.build_client_command,
          Iperf3Runner.build_common_options_client, pairIf, flagIf, optIntPair,
          optStrPair, truthyPair, durationArgs, timestampsArgs, ipVersionArgs,
          pyTruthyStr]

/-- Witness for C4: the amended theorem applied at port 80. -/
theorem C4_default_suppression_witness :
    "--port" ∈ Iperf3Runner.build_client_command
      { server_host := "h", port := 80 } :=
  (C4_default_suppression_amended.1 80 (by decide) (by decide)).mpr (by decide)

/-- Claim C5, counterexample: the client configuration with `time = None`
and `bytes`/`blockcount` unset is accepted by construction, yet its
compiled command carries none of the three duration flag pairs — so
"exactly one" fails. -/
theorem C5_no_duration_flag_counterexample :
    (IperfClientConfig.construct none
      { server_host := "h", time := none }).isOk = true ∧
    "--time" ∉ Iperf3Runner.build_client_command
      { server_host := "h", time := none } ∧
    "--bytes" ∉ Iperf3Runner.build_client_command
      { server_host := "h", time := none } ∧
    "--blockcount" ∉ Iperf3Runner.build_client_command
      { server_host := "h", time := none } :=
  ⟨by decide, by decide, by decide, by decide⟩

/-- Claim C5, amended: the duration selector contributes one contiguous
segment of the compiled command; that segment is empty or exactly one of
the three flag pairs (the time pair when `time` is set, else bytes, else
blockcount, chosen in that order on truthy values); it is empty iff
`time` is `None` and `bytes` and `blockcount` are unset or empty; and
setting more than one duration field always fails construction. -/
theorem C5_duration_flags_amended :
    (∀ c : IperfClientConfig,
      durationArgs c <:+: Iperf3Runner.build_client_command c) ∧
    (∀ c : IperfClientConfig,
      durationArgs c = [] ∨ (∃ v, durationArgs c = ["--time", v]) ∨
      (∃ v, durationArgs c = ["--bytes", v]) ∨
      (∃ v, durationArgs c = ["--blockcount", v])) ∧
    (∀ c : IperfClientConfig,
      durationArgs c = [] ↔
        (c.time = none ∧ pyTruthyStr c.bytes = false ∧
         pyTruthyStr c.blockcount = false)) ∧
    (∀ (raw : Option (Int ⊕ String)) (f : IperfClientConfig),
      durationSetCount f > 1 →
      (IperfClientConfig.construct raw f).isOk = false) := by
  refine ⟨?_, ?_, ?_, construct_fails_of_dup_duration⟩
  · intro c
    exact infix_flatten_of_mem (by simp [Iperf3Runner.build_client_command])
  · intro c
    unfold durationArgs
    split_ifs with h1 h2 h3
    · exact Or.inr (Or.inl ⟨_, rfl⟩)
    · exact Or.inr (Or.inr (Or.inl ⟨_, rfl⟩))
    · exact Or.inr (Or.inr (Or.inr ⟨_, rfl⟩))
    · exact Or.inl rfl
  · intro c
    unfold durationArgs
    split_ifs with h1 h2 h3 <;> simp_all [Option.isSome_iff_ne_none]

/-- Witness for C5: the amended theorem's construction clause applied to
a configuration setting `bytes` while `time` keeps its default. -/
theorem C5_duration_flags_witness :
    (IperfClientConfig.construct none
      { server_host := "h", bytes := some "2G" }).isOk = false :=
  C5_duration_flags_amended.2.2.2 none _ (by decide)

/-- Claim C6, counterexample: for stdout consisting of one non-JSON log
line and one line that is valid JSON but is an array (so its stripped
form does not start with `"{"`), the runner's parser recovers nothing,
while the claimed policy (accept the first line that parses as JSON)
recovers the array. -/
theorem C6_line_scan_counterexample :
    parse_json_output "starting test\n[1, 2]" = none ∧
    pyJsonLoads "[1, 2]" = some (.arr [.num "1", .num "2"]) ∧
    specParsePolicy "starting test\n[1, 2]" =
      some (.arr [.num "1", .num "2"]) :=
  ⟨rfl, rfl, rfl⟩

/-- Claim C6, amended: the parser first attempts the whole stdout buffer
as one JSON document; on failure it accepts the first line whose stripped
form starts with `"{"` and which parses as JSON — equivalently, it
restricts the claimed first-parsable-line policy to the brace-initial
lines. -/
theorem C6_parse_policy_amended :
    ∀ s : String, parse_json_output s = specParsePolicyAmended s := by
  intro s
  cases hj : pyJsonLoads s <;>
    simp [parse_json_output, specParsePolicyAmended, hj, scanJsonLines_eq_filter]

/-- Claim C7, counterexample: negative values pass the CPU-affinity
validation — the string `"-3"` and the int `-7` are both accepted,
although neither is a non-negative integer. -/
theorem C7_negative_affinity_counterexample :
    validate_cpu_affinity (some (.inr "-3")) = .ok (some "-3") ∧
    validate_cpu_affinity (some (.inl (-7))) = .ok (some "-7") ∧
    validate_cpu_affinity (some (.inr "3,-1")) = .ok (some "3,-1") :=
  ⟨rfl, rfl, rfl⟩

/-- Claim C7, amended: `None` passes; any int (of either sign) is
accepted and stringified; a string is accepted iff it splits on `","`
into at most two components, each of which parses as a Python integer
literal after stripping (optional sign allowed) — more than two
components or a non-integer component fails. -/
theorem C7_affinity_amended :
    (validate_cpu_affinity none = .ok none) ∧
    (∀ i : Int, validate_cpu_affinity (some (.inl i)) = .ok (some (toString i))) ∧
    (∀ s : String, (validate_cpu_affinity (some (.inr s))).isOk = true ↔
       ((pySplitChar ',' s).length ≤ 2 ∧
        ∀ p ∈ pySplitChar ',' s, pyIntParsable (pyStrip p) = true)) := by
  refine ⟨rfl, fun i => rfl, fun s => ?_⟩
  unfold validate_cpu_affinity
  by_cases hl : (pySplitChar ',' s).length > 2
  · simp [hl, Except.isOk, Except.toBool]
  · cases hf : (pySplitChar ',' s).find? (fun p => !(pyIntParsable (pyStrip p))) with
    | none =>
        simp [hl, hf, Except.isOk, Except.toBool]
        refine ⟨by omega, fun p hp => ?_⟩
        have := List.find?_eq_none.mp hf p hp
        simpa using this
    | some p =>
        have hmem := List.mem_of_find?_eq_some hf
        have hpred := List.find?_some hf
        simp only [Bool.not_eq_true'] at hpred
        simp [hl, hf, Except.isOk, Except.toBool]
        intro _
        exact ⟨p, hmem, by simp [hpred]⟩

/-- Witness for C7: the amended criterion applied to the pair `"1,2"`. -/
theorem C7_affinity_amended_witness :
    (validate_cpu_affinity (some (.inr "1,2"))).isOk = true :=
  (C7_affinity_amended.2.2 "1,2").mpr (by decide)

/-- Claim C8 (code bug): at a concrete run whose subprocess would exceed
the 5-second timeout, the code never reaches the timeout handler — the
`env_vars` attribute error aborts the `try` block before the subprocess
starts, so the result carries the generic unexpected-error message, not
the descriptive timeout message the claim (and runner.py lines 359-362)
intend. -/
theorem C8_timeout_path_unreachable :
    (Iperf3Runner.run {} (.client { server_host := "h" }) {} (some 5) "u"
      (fun _ => .timesOut)).2 = false ∧
    (Iperf3Runner.run {} (.client { server_host := "h" }) {} (some 5) "u"
      (fun _ => .timesOut)).1.return_code = -1 ∧
    (Iperf3Runner.run {} (.client { server_host := "h" }) {} (some 5) "u"
      (fun _ => .timesOut)).1.stderr =
      "Unexpected error: 'EnvironmentConfig' object has no attribute 'env_vars'" ∧
    (Iperf3Runner.run {} (.client { server_host := "h" }) {} (some 5) "u"
      (fun _ => .timesOut)).1.stderr ≠
      "Command timed out after 5 seconds" :=
  ⟨rfl, rfl, rfl, by decide⟩

/-- Claim C9: setting `bytes` (or `blockcount`) while leaving `time` at
its default `10` fails validation for every value of the byte/block
count, and the same configuration with `time = None` passed explicitly is
accepted. -/
theorem C9_default_time_conflicts_with_bytes :
    (∀ b : String, (IperfClientConfig.construct none
      { server_host := "h", bytes := some b }).isOk = false) ∧
    (∀ b : String, (IperfClientConfig.construct none
      { server_host := "h", blockcount := some b }).isOk = false) ∧
    (∀ b : String, (IperfClientConfig.construct none
      { server_host := "h", time := none, bytes := some b }).isOk = true) ∧
    (∀ b : String, (IperfClientConfig.construct none
      { server_host := "h", time := none, blockcount := some b }).isOk = true) :=
  ⟨fun _ => construct_fails_of_dup_duration none _ (by simp [durationSetCount]),
   fun _ => construct_fails_of_dup_duration none _ (by simp [durationSetCount]),
   fun _ => construct_ok_of_valid_tcp none _
     (by simp [clientFieldErrors, checkGe, checkLe, checkOptGe, checkOptLe,
        validate_cpu_affinity])
     rfl (by simp [durationSetCount]) rfl,
   fun _ => construct_ok_of_valid_tcp none _
     (by simp [clientFieldErrors, checkGe, checkLe, checkOptGe, checkOptLe,
        validate_cpu_affinity])
     rfl (by simp [durationSetCount]) rfl⟩

/-- Claim C10, counterexample: with `timestamps` set to the empty string,
the compiled command carries no timestamps token at all (Python
truthiness), contradicting "the combined token for any other value". -/
theorem C10_empty_timestamps_counterexample :
    Iperf3Runner.build_client_command
      { server_host := "h", timestamps := some "" } =
      ["--client", "h", "--time", "10"] ∧
    "--timestamps" ∉ Iperf3Runner.build_client_command
      { server_host := "h", timestamps := some "" } ∧
    "--timestamps=" ∉ Iperf3Runner.build_client_command
      { server_host := "h", timestamps := some "" } :=
  ⟨rfl, by decide, by decide⟩

/-- Claim C10, amended: the timestamps field contributes one contiguous
segment to both client and server commands; for a set, non-empty value it
is the single bare token `--timestamps` when the value is exactly
`"default"` and the single combined token `--timestamps=<value>`
otherwise; for an unset or empty value it is empty. -/
theorem C10_timestamps_amended :
    (∀ v : String, timestampsArgs (some v) =
      (if v = "" then []
       else if v = "default" then ["--timestamps"]
       else ["--timestamps=" ++ v])) ∧
    timestampsArgs none = [] ∧
    (∀ c : IperfClientConfig,
      timestampsArgs c.timestamps <:+: Iperf3Runner.build_client_command c) ∧
    (∀ s : IperfServerConfig,
      timestampsArgs s.timestamps <:+: Iperf3Runner.build_server_command s) := by
  refine ⟨?_, rfl, ?_, ?_⟩
  · intro v
    by_cases h1 : v = "" <;> by_cases h2 : v = "default" <;>
      simp_all [timestampsArgs, pyTruthyStr]
  · intro c
    have h1 : timestampsArgs c.timestamps <:+:
        Iperf3Runner.build_common_options_client c :=
      infix_flatten_of_mem (by simp [Iperf3Runner.build_common_options_client])
    have h2 : Iperf3Runner.build_common_options_client c <:+:
        Iperf3Runner.build_client_command c :=
      infix_flatten_of_mem (by simp [Iperf3Runner.build_client_command])
    exact h1.trans h2
  · intro s
    have h1 : timestampsArgs s.timestamps <:+:
        Iperf3Runner.build_common_options_server s :=
      infix_flatten_of_mem (by simp [Iperf3Runner.build_common_options_server])
    have h2 : Iperf3Runner.build_common_options_server s <:+:
        Iperf3Runner.build_server_command s :=
      infix_flatten_of_mem (by simp [Iperf3Runner.build_server_command])
    exact h1.trans h2

end Piperf3
